import Mathlib

/-!
Shallow embedding of the stacktrace crate (src/lib.rs).

The crate pairs error values with call-stack snapshots.  The external
backtrace collaborator (frame enumeration, symbol resolution, UTF-8
decoding, demangling) is modelled as an explicit `Backtrace` record
describing what the collaborator would deliver at one capture point; the
functions of this file are translated from src/lib.rs against that record.
Debug rendering is modelled as pure string production, since all write!
calls in the source only append text to the formatter.
-/

/-- Mirrors std::result::Result with the success type first, as in the source. -/
inductive Result (A : Type) (E : Type) where
  | ok : A → Result A E
  | err : E → Result A E
deriving DecidableEq

/-- One symbol delivered by backtrace::resolve for an instruction pointer:
raw (possibly non-UTF-8, possibly mangled) name bytes, symbol address, file
name bytes and line number, each independently optional. -/
structure BtSymbol where
  nameBytes : Option (List Nat)
  addr : Option Nat
  filenameBytes : Option (List Nat)
  lineno : Option Nat
deriving DecidableEq

/-- The external backtrace collaborator as observed at one capture point:
the instruction pointers enumerated by backtrace::trace (innermost first),
the symbols backtrace::resolve delivers for an instruction pointer (possibly
none, possibly several for inlined code), std::str::from_utf8 as an optional
decoder, and backtrace::demangle as an optional rewriter of symbol names. -/
structure Backtrace where
  rawFrames : List Nat
  resolve : Nat → List BtSymbol
  decodeUtf8 : List Nat → Option String
  demangle : String → Option String

/-- FrameInfo from src/lib.rs: instruction pointer of the call frame plus
optional demangled name, symbol address, source file name and line number. -/
structure FrameInfo where
  ip : Nat
  name : Option String
  addr : Option Nat
  filename : Option String
  lineno : Option Nat
deriving DecidableEq

/-- StackInfo from src/lib.rs: the captured frames, in call stack order. -/
structure StackInfo where
  frames : List FrameInfo
deriving DecidableEq

/-- Trace from src/lib.rs: an error annotated with a stack trace. -/
structure Trace (E : Type) where
  err : E
  stacktrace : StackInfo

/-- The body of the symbol_handler closure inside StackInfo::new: build one
FrameInfo from the current instruction pointer and one resolved symbol.  The
name survives only when the raw bytes decode as UTF-8 and then demangle
successfully; the file name only when its bytes decode as UTF-8. -/
def symbolHandler (bt : Backtrace) (ip : Nat) (s : BtSymbol) : FrameInfo :=
  { ip := ip
  , name := (s.nameBytes.bind bt.decodeUtf8).bind bt.demangle
  , addr := s.addr
  , filename := s.filenameBytes.bind bt.decodeUtf8
  , lineno := s.lineno }

/-- StackInfo::new from src/lib.rs: for every frame enumerated by
backtrace::trace, backtrace::resolve is invoked on its instruction pointer
and the handler pushes one FrameInfo per delivered symbol; the trace callback
always returns true, so every enumerated frame is visited. -/
def StackInfo.new (bt : Backtrace) : StackInfo :=
  ⟨bt.rawFrames.flatMap fun ip => (bt.resolve ip).map (symbolHandler bt ip)⟩

/-- Trace::new from src/lib.rs: pair the value with a snapshot captured now. -/
def Trace.new {E : Type} (bt : Backtrace) (e : E) : Trace E :=
  { err := e, stacktrace := StackInfo.new bt }

/-- Trace::result from src/lib.rs: pass Ok through; on Err apply the
caller-supplied From conversion and capture a fresh snapshot at the call
point (the Backtrace argument stands for the stack state there). -/
def Trace.result {A E F : Type} (bt : Backtrace) (conv : E → F) :
    Result A E → Result A (Trace F)
  | .ok a => .ok a
  | .err e => .err { err := conv e, stacktrace := StackInfo.new bt }

/-- Trace::trace from src/lib.rs: pass Ok through; on Err apply the
caller-supplied From conversion to the wrapped error while keeping the
previous stack trace.  No Backtrace is consulted: the source performs no
capture here. -/
def Trace.trace {A E F : Type} (conv : E → F) :
    Result A (Trace E) → Result A (Trace F)
  | .ok a => .ok a
  | .err t => .err { err := conv t.err, stacktrace := t.stacktrace }

/-- Lowercase hexadecimal digits of a number, as Rust LowerHex prints a
pointer value. -/
def hexChars (n : Nat) : List Char := Nat.toDigits 16 n

/-- The pointer field written by the {:018p} format on a 64-bit target: the
0x prefix and the hexadecimal digits zero-padded on the left to sixteen
positions, for a total width of eighteen. -/
def fmtPtr (n : Nat) : String :=
  "0x" ++ String.mk (List.replicate (16 - (hexChars n).length) '0')
    ++ String.mk (hexChars n)

/-- The index field written by the {:4} format: decimal digits right-aligned
in width four with spaces. -/
def padIndex (i : Nat) : String :=
  String.mk (List.replicate (4 - (toString i).length) ' ') ++ toString i

/-- The Debug impl for FrameInfo from src/lib.rs (64-bit variant): pointer,
demangled name or unknown, then file name and line number or unknown, the
latter two in parentheses separated by a colon. -/
def FrameInfo.fmtDebug (f : FrameInfo) : String :=
  fmtPtr f.ip ++ " - " ++ f.name.getD "<unknown>" ++ " ("
    ++ f.filename.getD "<unknown>" ++ ":"
    ++ (f.lineno.map toString).getD "<unknown>" ++ ")"

/-- The Debug impl for StackInfo from src/lib.rs: the header line, then the
enumerate loop appending one line per frame to the formatter. -/
def StackInfo.fmtDebug (s : StackInfo) : String :=
  s.frames.enum.foldl
    (fun acc p => acc ++ (padIndex p.1 ++ " - " ++ p.2.fmtDebug ++ "\n"))
    "stack backtrace:\n"

/-- The Debug impl for Trace from src/lib.rs: the struct wrapper, the err
field rendered with the inner Debug instance dbgE, then the stacktrace, then
the closing brace. -/
def Trace.fmtDebug {E : Type} (dbgE : E → String) (t : Trace E) : String :=
  "Trace \x7b\n" ++ ("err: " ++ dbgE t.err ++ "\n")
    ++ t.stacktrace.fmtDebug ++ "\x7d"

/-- Concatenation of a list of strings, first to last. -/
def concatAll : List String → String
  | [] => ""
  | a :: l => a ++ concatAll l

/-- One frame line of the rendered snapshot at a given index: the index
right-aligned in width four, the address, the name or unknown, and the file
and line or unknown in parentheses, with a trailing newline. -/
def frameLine (p : Nat × FrameInfo) : String :=
  padIndex p.1 ++ " - " ++ fmtPtr p.2.ip ++ " - "
    ++ p.2.name.getD "<unknown>" ++ " (" ++ p.2.filename.getD "<unknown>"
    ++ ":" ++ (p.2.lineno.map toString).getD "<unknown>" ++ ")" ++ "\n"

/-- A concrete traced error with inner Debug form E0 and an empty snapshot. -/
def cexTrace : Trace Unit := { err := (), stacktrace := { frames := [] } }

/-- A capture context whose only enumerated frame resolves to no symbols. -/
def btNoSym : Backtrace :=
  { rawFrames := [5]
  , resolve := fun _ => []
  , decodeUtf8 := fun _ => none
  , demangle := fun _ => none }

/-- A capture context with one frame whose single symbol carries no
metadata. -/
def btBareSym : Backtrace :=
  { rawFrames := [3]
  , resolve := fun _ => [{ nameBytes := none, addr := none
                         , filenameBytes := none, lineno := none }]
  , decodeUtf8 := fun _ => none
  , demangle := fun _ => none }

/-- A capture context whose decoder yields a mangled name that the demangler
rejects. -/
def btMangled : Backtrace :=
  { rawFrames := [1]
  , resolve := fun _ => [{ nameBytes := some [90], addr := none
                         , filenameBytes := none, lineno := none }]
  , decodeUtf8 := fun _ => some "_ZMangled"
  , demangle := fun _ => none }

/-- A capture context that enumerates no frames at all. -/
def btEmptyWalk : Backtrace :=
  { rawFrames := [], resolve := fun _ => []
  , decodeUtf8 := fun _ => none, demangle := fun _ => none }

/-- A capture context whose one frame resolves to two symbols, as happens
for inlined code. -/
def btInline : Backtrace :=
  { rawFrames := [7]
  , resolve := fun _ =>
      [ { nameBytes := none, addr := some 1, filenameBytes := none, lineno := none }
      , { nameBytes := none, addr := some 2, filenameBytes := none, lineno := none } ]
  , decodeUtf8 := fun _ => none
  , demangle := fun _ => none }

/-- Claim C1: Trace::trace on an Err keeps the snapshot structurally equal and
only converts the error value; hence a chain of Trace::trace hops after a
first Trace::result or Trace::new keeps the snapshot captured at that first
call. -/
theorem trace_preserves_snapshot {A E F G H : Type}
    (conv : E → F) (g : F → G) (h : G → H) (t : Trace E) (e : E) (f : F)
    (bt : Backtrace) :
    Trace.trace conv (Result.err t : Result A (Trace E))
        = Result.err { err := conv t.err, stacktrace := t.stacktrace }
      ∧ Trace.trace h (Trace.trace g
            (Trace.result bt conv (Result.err e : Result A E)))
        = Result.err { err := h (g (conv e)), stacktrace := StackInfo.new bt }
      ∧ Trace.trace h (Trace.trace g
            (Result.err (Trace.new bt f) : Result A (Trace F)))
        = Result.err { err := h (g f), stacktrace := StackInfo.new bt } :=
  ⟨rfl, rfl, rfl⟩

/-- Claim C2: Trace::result on an Err yields an Err whose error field is
exactly the caller-supplied conversion applied to the original error and
whose stacktrace is the snapshot freshly captured at the call point. -/
theorem result_err_fresh_capture {A E F : Type}
    (bt : Backtrace) (conv : E → F) (e : E) :
    Trace.result bt conv (Result.err e : Result A E)
      = Result.err { err := conv e, stacktrace := StackInfo.new bt } :=
  rfl

/-- Claim C3: Trace::result and Trace::trace pass an Ok through unchanged;
the Ok branch of Trace::result depends on no property of the capture context
(so no capture is observable there), and Trace::trace takes no capture
context at all. -/
theorem ok_passthrough_no_capture {A E F : Type}
    (conv : E → F) (a : A) (bt bt2 : Backtrace) :
    Trace.result bt conv (Result.ok a : Result A E) = Result.ok a
      ∧ Trace.trace conv (Result.ok a : Result A (Trace E)) = Result.ok a
      ∧ Trace.result bt conv (Result.ok a : Result A E)
          = Trace.result bt2 conv (Result.ok a : Result A E) :=
  ⟨rfl, rfl, rfl⟩

/-- Folding string appends over a list equals the seed followed by the
concatenation of the per-element strings. -/
theorem foldl_append_eq_concatAll {α : Type} (g : α → String) :
    ∀ (l : List α) (init : String),
      l.foldl (fun acc p => acc ++ g p) init = init ++ concatAll (l.map g)
  | [], init => by simp [concatAll, String.append_empty]
  | a :: l, init => by
    simp only [List.foldl_cons, List.map_cons, concatAll,
      foldl_append_eq_concatAll g l, String.append_assoc]

/-- The rendered snapshot, as header plus concatenated frame lines. -/
theorem stackinfo_fmt_eq (s : StackInfo) :
    StackInfo.fmtDebug s
      = "stack backtrace:\n" ++ concatAll (s.frames.enum.map frameLine) := by
  unfold StackInfo.fmtDebug
  rw [foldl_append_eq_concatAll
    (fun p : Nat × FrameInfo => padIndex p.1 ++ " - " ++ p.2.fmtDebug ++ "\n")]
  have hg : (fun p : Nat × FrameInfo =>
      padIndex p.1 ++ " - " ++ p.2.fmtDebug ++ "\n") = frameLine := by
    funext p
    simp only [frameLine, FrameInfo.fmtDebug, String.append_assoc]
  rw [hg]

/-- Claim C6: rendering a snapshot yields the header line followed by one
line per frame in order, each line made of the width-four right-aligned
index, the address, the name or unknown, and the file and line or unknown in
parentheses, each optional field falling back to unknown independently; the
renderer is a total function, so rendering never fails. -/
theorem stackinfo_debug_layout (s : StackInfo) :
    StackInfo.fmtDebug s
      = "stack backtrace:\n" ++ concatAll (s.frames.enum.map frameLine) :=
  stackinfo_fmt_eq s

/-- Claim C5 amended: the Debug output of a traced error is the struct
wrapper line, then the err field with the inner Debug form, then the header
line, then the ordered frame lines, then the closing brace; the inner error
form precedes the header and frames but the output does not begin with it. -/
theorem trace_debug_layout {E : Type} (dbgE : E → String) (t : Trace E) :
    Trace.fmtDebug dbgE t
      = "Trace \x7b\n" ++ "err: " ++ dbgE t.err ++ "\n" ++ "stack backtrace:\n"
        ++ concatAll (t.stacktrace.frames.enum.map frameLine) ++ "\x7d" := by
  unfold Trace.fmtDebug
  rw [stackinfo_fmt_eq]
  simp only [String.append_assoc]

/-- Claim C5 counterexample: with inner Debug form E0 and an empty snapshot,
the rendered output starts with the struct wrapper, not with E0. -/
theorem trace_debug_not_err_first :
    (Trace.fmtDebug (fun _ => "E0") cexTrace).data.take 2 ≠ ['E', '0']
      ∧ Trace.fmtDebug (fun _ => "E0") cexTrace
          = "Trace \x7b\nerr: E0\nstack backtrace:\n\x7d" := by
  constructor
  · decide
  · rfl

/-- Claim C9: rendering is deterministic: the Debug output of a traced error
is a function of the inner Debug instance, the error value and the snapshot
contents alone, so two traced errors agreeing on those render identically,
however often and whenever they are rendered. -/
theorem rendering_deterministic {E : Type} (dbgE : E → String)
    (t t2 : Trace E) (he : t.err = t2.err) (hs : t.stacktrace = t2.stacktrace) :
    Trace.fmtDebug dbgE t = Trace.fmtDebug dbgE t2 := by
  cases t
  cases t2
  cases he
  cases hs
  rfl

/-- Witness for claim C9 at a concrete traced error. -/
theorem rendering_deterministic_w :
    Trace.fmtDebug (fun _ => "E") (Trace.mk (0 : Nat) { frames := [] })
      = Trace.fmtDebug (fun _ => "E") (Trace.mk (0 : Nat) { frames := [] }) :=
  rendering_deterministic (fun _ => "E") _ _ rfl rfl

/-- Claim C4 amended: every symbol delivered by resolution for an enumerated
frame yields a descriptor present in the snapshot, and a symbol carrying no
metadata still yields a descriptor with all optional fields absent (capture
is a total function and never aborts); however, a frame for which resolution
delivers no symbol at all is omitted from the snapshot. -/
theorem resolution_gap_keeps_descriptor (bt : Backtrace) (ip : Nat)
    (s : BtSymbol) (hip : ip ∈ bt.rawFrames) (hs : s ∈ bt.resolve ip) :
    symbolHandler bt ip s ∈ (StackInfo.new bt).frames
      ∧ (s.nameBytes = none → s.addr = none → s.filenameBytes = none →
          s.lineno = none →
          symbolHandler bt ip s
            = { ip := ip, name := none, addr := none
              , filename := none, lineno := none }) := by
  constructor
  · unfold StackInfo.new
    simp only [List.mem_flatMap]
    exact ⟨ip, hip, List.mem_map_of_mem _ hs⟩
  · intro h1 h2 h3 h4
    simp [symbolHandler, h1, h2, h3, h4]

/-- Witness for the amended claim C4 at a concrete capture context. -/
theorem resolution_gap_keeps_descriptor_w :
    symbolHandler btBareSym 3 ⟨none, none, none, none⟩
        ∈ (StackInfo.new btBareSym).frames
      ∧ symbolHandler btBareSym 3 ⟨none, none, none, none⟩
        = { ip := 3, name := none, addr := none
          , filename := none, lineno := none } :=
  have h := resolution_gap_keeps_descriptor btBareSym 3 ⟨none, none, none, none⟩
    (by decide) (by decide)
  ⟨h.1, h.2 rfl rfl rfl rfl⟩

/-- Claim C4 counterexample: a frame enumerated by the walk whose resolution
yields no symbols produces no descriptor at all, so it does not appear in the
snapshot with absent fields. -/
theorem unresolved_frame_dropped :
    btNoSym.rawFrames = [5]
      ∧ ¬ ∃ fi, fi ∈ (StackInfo.new btNoSym).frames ∧ fi.ip = 5 := by
  refine ⟨rfl, ?_⟩
  intro h
  obtain ⟨fi, hmem, _⟩ := h
  have hnil : (StackInfo.new btNoSym).frames = [] := rfl
  rw [hnil] at hmem
  exact absurd hmem (List.not_mem_nil fi)

/-- Claim C7: when the resolved raw name is absent, fails UTF-8 decoding or
fails to demangle, the descriptor name is absent, so it later renders as
unknown; any name present in a descriptor is a successful demangling output,
never the raw mangled form. -/
theorem demangle_failure_name_absent (bt : Backtrace) (ip : Nat)
    (s : BtSymbol) :
    (∀ bs str, s.nameBytes = some bs → bt.decodeUtf8 bs = some str →
        bt.demangle str = none → (symbolHandler bt ip s).name = none)
      ∧ (∀ bs, s.nameBytes = some bs → bt.decodeUtf8 bs = none →
          (symbolHandler bt ip s).name = none)
      ∧ (s.nameBytes = none → (symbolHandler bt ip s).name = none)
      ∧ (∀ n, (symbolHandler bt ip s).name = some n →
          ∃ bs str, s.nameBytes = some bs ∧ bt.decodeUtf8 bs = some str
            ∧ bt.demangle str = some n) := by
  refine ⟨?_, ?_, ?_, ?_⟩
  · intro bs str h1 h2 h3
    simp [symbolHandler, h1, h2, h3]
  · intro bs h1 h2
    simp [symbolHandler, h1, h2]
  · intro h1
    simp [symbolHandler, h1]
  · intro n hn
    have hn2 : (s.nameBytes.bind bt.decodeUtf8).bind bt.demangle = some n := hn
    rw [Option.bind_eq_some] at hn2
    obtain ⟨str, hstr, hdem⟩ := hn2
    rw [Option.bind_eq_some] at hstr
    obtain ⟨bs, hbs, hdec⟩ := hstr
    exact ⟨bs, str, hbs, hdec, hdem⟩

/-- Witness for claim C7 at a concrete capture context whose demangler
rejects the decoded name. -/
theorem demangle_failure_name_absent_w :
    (symbolHandler btMangled 1 ⟨some [90], none, none, none⟩).name = none :=
  (demangle_failure_name_absent btMangled 1 ⟨some [90], none, none, none⟩).1
    [90] "_ZMangled" rfl rfl rfl

/-- Claim C8: when the stack walk enumerates no frames, StackInfo::new
returns the empty snapshot; capture is a total function, so it raises no
error and cannot turn the surrounding call into a failure. -/
theorem empty_walk_empty_snapshot (bt : Backtrace) (h : bt.rawFrames = []) :
    StackInfo.new bt = { frames := [] } := by
  unfold StackInfo.new
  rw [h]
  rfl

/-- Witness for claim C8 at a concrete capture context with no frames. -/
theorem empty_walk_empty_snapshot_w :
    StackInfo.new btEmptyWalk = { frames := [] } :=
  empty_walk_empty_snapshot btEmptyWalk rfl

/-- Claim C10: the snapshot holds one descriptor per symbol delivered by
resolution, so its length is the sum over the enumerated frames of the
number of delivered symbols and can exceed the number of raw frames; every
descriptor carries the instruction pointer of the raw frame it was resolved
from. -/
theorem descriptor_per_symbol (bt : Backtrace) :
    (StackInfo.new bt).frames.length
        = (bt.rawFrames.map fun ip => (bt.resolve ip).length).sum
      ∧ ∀ fi, fi ∈ (StackInfo.new bt).frames →
          fi.ip ∈ bt.rawFrames
            ∧ ∃ s, s ∈ bt.resolve fi.ip ∧ fi = symbolHandler bt fi.ip s := by
  constructor
  · simp only [StackInfo.new, List.length_flatMap, Function.comp_def,
      List.length_map]
  · intro fi hmem
    unfold StackInfo.new at hmem
    simp only [List.mem_flatMap, List.mem_map] at hmem
    obtain ⟨ip, hip, s, hs, hfi⟩ := hmem
    subst hfi
    exact ⟨hip, s, hs, rfl⟩

/-- Witness for claim C10 at a capture context where one raw frame resolves
to two symbols. -/
theorem descriptor_per_symbol_w :
    (StackInfo.new btInline).frames.length = 2
      ∧ btInline.rawFrames.length = 1
      ∧ (symbolHandler btInline 7 ⟨none, some 1, none, none⟩).ip
          ∈ btInline.rawFrames := by
  refine ⟨?_, rfl, ?_⟩
  · rw [(descriptor_per_symbol btInline).1]
    rfl
  · exact ((descriptor_per_symbol btInline).2 _ (by decide)).1
